import Mathlib

/-!
Verification of the `prfs` / `psv_tools` relief-rate library.

Shallow embedding of the repository's core logic:

* `flash_to_VF` — the vapor-fraction flash resolver
  (`src/prfs/util.py` and `src/psv_tools/api521.py`, identical bodies);
* `flash_to_VF_memo` — the same resolver with the `functools.cache`
  memoization layer made explicit as threaded state;
* `fire_wetted_Q` — the heat-duty correlation (`src/psv_tools/api521.py`);
* `api521_fire_wetted` — the full vaporization-rate model
  (`src/prfs/reliefrate.py`);
* `darcy_dp` — the pipe-flow pressure-drop function with the
  exactly-one-of-N flow-specifier rule (`src/psv_tools/pipeflow.py`).

Python floats are modelled as real numbers.  pint `Quantity` values are
modelled by their magnitudes (with an explicit unit-conversion factor where
the unit of the input observably matters, see `AreaQ`).  The external
`thermo` flasher is an abstract pair of flash functions, and SciPy's
`root_scalar` is an abstract root-finding function passed as a parameter.
-/

/-- An external `thermo.equilibrium.EquilibriumState`: the projection of the
fields the core reads — temperature `T`, vapor fraction `VF`, molar enthalpy
`H` and molar heat capacity `Cp`. -/
structure EqState where
  T : ℝ
  VF : ℝ
  H : ℝ
  Cp : ℝ

/-- An external `thermo.flash.Flash` capability: `flashPV P VF zs` models
`flasher.flash(P=P, VF=VF, zs=zs)` (boundary flash at fixed pressure and
vapor fraction), and `flashTP T P zs` models `flasher.flash(T=T, P=P, zs=zs)`
(flash at fixed temperature and pressure, used during root-finding). -/
structure Flasher where
  flashPV : ℝ → ℝ → List ℝ → EqState
  flashTP : ℝ → ℝ → List ℝ → EqState

/-- A root finder standing for `scipy.optimize.root_scalar`:
`rs g a b` models `root_scalar(g, bracket=[a, b]).root`. -/
abbrev RootScalar : Type := (ℝ → ℝ) → ℝ → ℝ → ℝ

/-- Function `flash_to_VF` from `src/prfs/util.py` (bodies of the `prfs` and
`psv_tools` copies are identical), without the `functools.cache` layer
(that layer is modelled separately by `flash_to_VF_memo`):

```python
def flash_to_VF(flasher, P, VF, zs):
    if VF == 0.0 or VF == 1.0:
        return flasher.flash(P=P, VF=VF, zs=zs)
    else:
        sat_liquid = flash_to_VF(flasher, P=Q_(P, 'Pa'), VF=Q_('0.0'), zs=zs)
        sat_vapor = flash_to_VF(flasher, P=Q_(P, 'Pa'), VF=Q_('1.0'), zs=zs)
        def check_T(T_val):
            return flasher.flash(T=T_val, P=P, zs=zs).VF - VF
        T = root_scalar(check_T, bracket=[sat_liquid.T, sat_vapor.T]).root
        return flasher.flash(T=T, P=P, zs=zs)
```

The recursive calls hit the `VF == 0.0 or VF == 1.0` branch, so the
recursion depth is at most one. -/
noncomputable def flash_to_VF (rs : RootScalar) (flasher : Flasher)
    (P VF : ℝ) (zs : List ℝ) : EqState :=
  if _h : VF = 0 ∨ VF = 1 then
    flasher.flashPV P VF zs
  else
    let sat_liquid := flash_to_VF rs flasher P 0 zs
    let sat_vapor := flash_to_VF rs flasher P 1 zs
    let T := rs (fun T_val => (flasher.flashTP T_val P zs).VF - VF)
      sat_liquid.T sat_vapor.T
    flasher.flashTP T P zs
termination_by (if VF = 0 ∨ VF = 1 then 0 else 1)
decreasing_by
  all_goals simp_all

/-- A `functools.cache` key for `flash_to_VF`: the `(P, VF, zs)` argument
triple.  (The Python cache key also contains the flasher object itself; the
model fixes one flasher per cache, which is what every claim about the cache
quantifies over.)  `P` and `VF` are the magnitudes produced by the
`@ureg.wraps(None, (None, ureg.Pa, ureg.dimensionless, None))` layer, which
runs before the cache lookup. -/
abbrev CacheKey : Type := ℝ × ℝ × List ℝ

/-- The observable state of the memoized resolver: the cache contents
(most recent entry first) and the running number of calls made to the
underlying flasher (`flasher.flash(...)` evaluations), the call-count
instrumentation the spec's memoization property refers to. -/
structure MemoState where
  cache : List (CacheKey × EqState)
  flasherCalls : ℕ

/-- First cache entry whose key equals `k` (a `functools.cache` lookup is an
exact-match dictionary lookup on the argument tuple). -/
noncomputable def lookupKey (k : CacheKey) :
    List (CacheKey × EqState) → Option EqState
  | [] => none
  | (k', s) :: rest => if k' = k then some s else lookupKey k rest

/-- Function `flash_to_VF` with its `@cache` decorator made explicit
(`src/prfs/util.py` / `src/psv_tools/api521.py`): the wrapped function first
looks its argument tuple up in the cache; on a hit it returns the stored
`EquilibriumState` with no flasher call, on a miss it runs the body of
`flash_to_VF`, counting underlying flasher calls, and stores the result.
The recursive calls of the body go through the cached wrapper, so the two
boundary states are cached as well.  `rsCalls` abstracts the number of
`check_T` evaluations (one flasher call each) that `root_scalar` performs on
a given miss; the `+ 1` charges the final `flasher.flash(T=T, ...)` call. -/
noncomputable def flash_to_VF_memo (rs : RootScalar) (flasher : Flasher)
    (rsCalls : ℕ) (P VF : ℝ) (zs : List ℝ) (st : MemoState) :
    EqState × MemoState :=
  match lookupKey (P, VF, zs) st.cache with
  | some s => (s, st)
  | none =>
    if _h : VF = 0 ∨ VF = 1 then
      let s := flasher.flashPV P VF zs
      (s, ⟨((P, VF, zs), s) :: st.cache, st.flasherCalls + 1⟩)
    else
      let r1 := flash_to_VF_memo rs flasher rsCalls P 0 zs st
      let r2 := flash_to_VF_memo rs flasher rsCalls P 1 zs r1.2
      let T := rs (fun T_val => (flasher.flashTP T_val P zs).VF - VF)
        r1.1.T r2.1.T
      let s := flasher.flashTP T P zs
      (s, ⟨((P, VF, zs), s) :: r2.2.cache, r2.2.flasherCalls + rsCalls + 1⟩)
termination_by (if VF = 0 ∨ VF = 1 then 0 else 1)
decreasing_by
  all_goals simp_all

/-- A Python composition argument as passed for `zs`: either a `list`
(the type the signatures annotate, unhashable in Python) or a `tuple`
(hashable). -/
inductive PyComp where
  | pylist (xs : List ℝ)
  | pytuple (xs : List ℝ)

/-- Whether Python's `hash` succeeds on the value: `hash` raises `TypeError`
on a `list` and succeeds on a `tuple` of numbers. -/
def PyComp.hashable : PyComp → Bool
  | .pylist _ => false
  | .pytuple _ => true

/-- The numeric contents, independent of the container type. -/
def PyComp.vals : PyComp → List ℝ
  | .pylist xs => xs
  | .pytuple xs => xs

/-- The call boundary of the decorated `flash_to_VF`: the outer
`@ureg.wraps` layer converts `P` and `VF` and passes `zs` through untouched,
then the `functools.cache` wrapper hashes the argument tuple *before* the
wrapped body runs.  An unhashable `zs` makes that hashing raise `TypeError`,
so the body — and hence any flash — is never reached. -/
noncomputable def flash_to_VF_entry (rs : RootScalar) (flasher : Flasher)
    (rsCalls : ℕ) (P VF : ℝ) (zs : PyComp) (st : MemoState) :
    Except String EqState × MemoState :=
  if zs.hashable then
    let r := flash_to_VF_memo rs flasher rsCalls P VF zs.vals st
    (.ok r.1, r.2)
  else
    (.error "TypeError: unhashable type: list", st)

/-- Function `fire_wetted_Q` from `src/psv_tools/api521.py`.  Its
`@ureg.wraps(None, (ureg.ft ** 2, None, ureg.dimensionless, None))` layer
converts the wetted area to square feet and the environment factor to a bare
magnitude before the body runs, so here `A` is the area magnitude in ft² and
`F` the dimensionless factor.  Returns the pair `(Q, C)` of magnitudes, in
BTU/hr and BTU/hr/ft² respectively:

```python
if adequate_drainage: C = 21000.0
else:                 C = 34500.0
if air_cooler: E = 1.0
else:          E = 0.82
return Q_(C * F * A ** E, 'BTU/hr'), Q_(C, 'BTU/hr/ft^2')
``` -/
noncomputable def fire_wetted_Q (A : ℝ) (adequate_drainage : Bool) (F : ℝ)
    (air_cooler : Bool) : ℝ × ℝ :=
  let C : ℝ := if adequate_drainage then 21000.0 else 34500.0
  let E : ℝ := if air_cooler then 1.0 else 0.82
  (C * F * A ^ E, C)

/-- A pint area `Quantity`: its numeric magnitude in its own unit, together
with the factor converting that unit to square feet (`toFt2 = 1` when the
quantity is expressed in ft², `9` for yd², `1 / 0.3048 ^ 2` for m², ...).
The physical area in ft² is `mag * toFt2`. -/
structure AreaQ where
  mag : ℝ
  toFt2 : ℝ

/-- The result record of the vaporization model — the `dict` returned by
`api521_fire_wetted` in `src/prfs/reliefrate.py` (the same fields as the
`FireWettedResults` namedtuple of `src/psv_tools/api521.py`).  All fields
are magnitudes in the units fixed by the source (`Q` in BTU/hr, `C` in
BTU/hr/ft², `avg_Cp` in J/K/mol, temperatures in K, enthalpies in J/mol). -/
structure FireWettedResults where
  Q : ℝ
  C : ℝ
  n : ℝ
  avg_Cp : ℝ
  initial_T : ℝ
  final_T : ℝ
  interval_total_dH : ℝ
  interval_specific_dH : ℝ
  interval_latent_dH : ℝ
  latent_dH_per_vapor : ℝ

/-- Function `api521_fire_wetted` from `src/prfs/reliefrate.py`.  The `@ureg.check`
decorator only validates dimensions (the external unit contract), so inputs
reach the body as the pint quantities the caller built; `P` is the pressure
(its magnitude in Pa, as converted by `flash_to_VF`'s own wraps layer), `A`
the wetted-area quantity in the caller's unit.  Note the body computes
`Q = C * F * Q_((A**E).magnitude, 'ft^2')`: pint's `(A**E).magnitude` is the
magnitude of `A` *in its native unit* raised to `E`, relabelled as ft² (the
source comments this as avoiding `[area] ** 0.82` unit strangeness), hence
`A.mag ^ E` below with no unit conversion.  Cache effects are modelled
separately by `api521_fire_wetted_memo`; this is the pure value. -/
noncomputable def api521_fire_wetted (rs : RootScalar) (flasher : Flasher)
    (P : ℝ) (zs : List ℝ) (initial_VF final_VF : ℝ) (A : AreaQ)
    (adequate_drainage : Bool) (F : ℝ) (air_cooler : Bool) :
    Except String FireWettedResults :=
  if final_VF ≤ initial_VF then
    .error "final_VF must be greater than initial_VF"
  else
    let C : ℝ := if adequate_drainage then 21000.0 else 34500.0
    let E : ℝ := if air_cooler then 1.0 else 0.82
    let Q : ℝ := C * F * A.mag ^ E
    let initial_state := flash_to_VF rs flasher P initial_VF zs
    let final_state := flash_to_VF rs flasher P final_VF zs
    let avg_Cp := (initial_state.Cp + final_state.Cp) / 2.0
    let initial_T := initial_state.T
    let final_T := final_state.T
    let interval_total_dH := final_state.H - initial_state.H
    let interval_specific_dH := avg_Cp * (final_T - initial_T)
    let interval_latent_dH := interval_total_dH - interval_specific_dH
    let latent_dH_per_vapor := interval_latent_dH /
      (final_state.VF - initial_state.VF)
    let n := Q / latent_dH_per_vapor
    .ok ⟨Q, C, n, avg_Cp, initial_T, final_T, interval_total_dH,
      interval_specific_dH, interval_latent_dH, latent_dH_per_vapor⟩

/-- Function `api521_fire_wetted` with the resolver's cache state threaded through,
for the claims about *when* flasher calls happen: the `final_VF <= initial_VF`
guard is the first statement of the body, so on that error path the memo
state — in particular its flasher call count — is returned untouched. -/
noncomputable def api521_fire_wetted_memo (rs : RootScalar) (flasher : Flasher)
    (rsCalls : ℕ) (P : ℝ) (zs : List ℝ) (initial_VF final_VF : ℝ) (A : AreaQ)
    (adequate_drainage : Bool) (F : ℝ) (air_cooler : Bool) (st : MemoState) :
    Except String FireWettedResults × MemoState :=
  if final_VF ≤ initial_VF then
    (.error "final_VF must be greater than initial_VF", st)
  else
    let C : ℝ := if adequate_drainage then 21000.0 else 34500.0
    let E : ℝ := if air_cooler then 1.0 else 0.82
    let Q : ℝ := C * F * A.mag ^ E
    let r1 := flash_to_VF_memo rs flasher rsCalls P initial_VF zs st
    let r2 := flash_to_VF_memo rs flasher rsCalls P final_VF zs r1.2
    let initial_state := r1.1
    let final_state := r2.1
    let avg_Cp := (initial_state.Cp + final_state.Cp) / 2.0
    let initial_T := initial_state.T
    let final_T := final_state.T
    let interval_total_dH := final_state.H - initial_state.H
    let interval_specific_dH := avg_Cp * (final_T - initial_T)
    let interval_latent_dH := interval_total_dH - interval_specific_dH
    let latent_dH_per_vapor := interval_latent_dH /
      (final_state.VF - initial_state.VF)
    let n := Q / latent_dH_per_vapor
    (.ok ⟨Q, C, n, avg_Cp, initial_T, final_T, interval_total_dH,
      interval_specific_dH, interval_latent_dH, latent_dH_per_vapor⟩, r2.2)

/-- The exact message of the overspecified error raised by `darcy_dp`
(`src/psv_tools/pipeflow.py`; the adjacent Python string literals
concatenate to this text, which `tests/pipeflow_test.py` asserts
verbatim). -/
def overspecified_msg : String :=
  "Flow arguments are overspecified. Function requires exactly one of the following: 1) v (velocity), 2) Q (volumetric flow) or 3) m (mass flow)"

/-- The exact message of the underspecified error raised by `darcy_dp`. -/
def underspecified_msg : String :=
  "Flow arguments are underspecified. Function requires exactly one of the following: 1) v (velocity), 2) Q (volumetric flow) or 3) m (mass flow)"

/-- Function `darcy_dp` from `src/psv_tools/pipeflow.py`.  The `@ureg.check`
decorator only validates dimensions, so the body sees the callers'
magnitudes (in any one consistent unit system).  The body counts the
non-`None` flow specifiers among `v`, `Q`, `m`, successively overwriting the
local velocity: `Q` yields `v = Q / (pi/4 * D**2)`, then `m` yields
`v = (m / rho) / (pi/4 * D**2)`; it raises when the count is not exactly 1
and otherwise returns `f * rho * L * v * v / 2 / D`.  The `none, none, none`
velocity case of the final match is unreachable under a count of exactly 1
(Python never reads the undefined velocity there because it raises first);
`Option.getD` supplies a formal default for totality. -/
noncomputable def darcy_dp (f L D rho : ℝ) (v Q m : Option ℝ) :
    Except String ℝ :=
  let num_flow_specs : ℕ :=
    (if v.isSome then 1 else 0) + (if Q.isSome then 1 else 0) +
      (if m.isSome then 1 else 0)
  let v_final : Option ℝ :=
    match m, Q, v with
    | some mval, _, _ => some (mval / rho / (Real.pi / 4 * D ^ 2))
    | none, some qval, _ => some (qval / (Real.pi / 4 * D ^ 2))
    | none, none, vopt => vopt
  if 1 < num_flow_specs then
    .error overspecified_msg
  else if num_flow_specs < 1 then
    .error underspecified_msg
  else
    .ok (f * rho * L * (v_final.getD 0) * (v_final.getD 0) / 2 / D)

/-- The `psv_tools` duty call on a pint area quantity: the `@ureg.wraps`
layer converts the area to its ft² magnitude `A.mag * A.toFt2` before
`fire_wetted_Q`'s body runs. -/
noncomputable def fire_wetted_Q_wrapped (A : AreaQ) (adequate_drainage : Bool)
    (F : ℝ) (air_cooler : Bool) : ℝ × ℝ :=
  fire_wetted_Q (A.mag * A.toFt2) adequate_drainage F air_cooler

/-- A concrete root finder for instantiating theorems: always answers `1/2`
(an exact root of the residual in the concrete scenarios below). -/
noncomputable def rs0 : RootScalar := fun _ _ _ => 1 / 2

/-- A concrete flasher for instantiating theorems: the equilibrium state at
vapor fraction `VF` has `T = VF`, `H = 100 * VF`, `Cp = 10`, and a
temperature-pressure flash at `T` mirrors it. -/
noncomputable def rampFlasher : Flasher where
  flashPV := fun _ VF _ => ⟨VF, VF, 100 * VF, 10⟩
  flashTP := fun T _ _ => ⟨T, T, 100 * T, 10⟩

/-- A concrete degenerate flasher: every flash returns one fixed state
(vapor fraction `0.3`), the way a real flasher can collapse an interval
within solver tolerance. -/
noncomputable def constFlasher : Flasher where
  flashPV := fun _ _ _ => ⟨300, 0.3, 100, 10⟩
  flashTP := fun _ _ _ => ⟨300, 0.3, 100, 10⟩

theorem flash_to_VF_boundary (rs : RootScalar) (flasher : Flasher)
    (P VF : ℝ) (zs : List ℝ) (h : VF = 0 ∨ VF = 1) :
    flash_to_VF rs flasher P VF zs = flasher.flashPV P VF zs := by
  rw [flash_to_VF]
  simp [h]

theorem flash_to_VF_interior (rs : RootScalar) (flasher : Flasher)
    (P VF : ℝ) (zs : List ℝ) (h : ¬(VF = 0 ∨ VF = 1)) :
    flash_to_VF rs flasher P VF zs =
      flasher.flashTP
        (rs (fun T_val => (flasher.flashTP T_val P zs).VF - VF)
          (flash_to_VF rs flasher P 0 zs).T (flash_to_VF rs flasher P 1 zs).T)
        P zs := by
  rw [flash_to_VF]
  simp [h]

/-- After any memoized call, the cache maps the call's key to the state that
call returned: on a miss the result is pushed at the head, on a hit the cache
is unchanged and already contains it. -/
theorem lookupKey_flash_to_VF_memo (rs : RootScalar) (flasher : Flasher)
    (rsCalls : ℕ) (P VF : ℝ) (zs : List ℝ) (st : MemoState) :
    lookupKey (P, VF, zs) (flash_to_VF_memo rs flasher rsCalls P VF zs st).2.cache
      = some (flash_to_VF_memo rs flasher rsCalls P VF zs st).1 := by
  rw [flash_to_VF_memo]
  cases hl : lookupKey (P, VF, zs) st.cache with
  | some s => simp [hl]
  | none =>
    by_cases h : VF = 0 ∨ VF = 1
    · simp [hl, h, lookupKey]
    · simp [hl, h, lookupKey]

/-- Every flash through `constFlasher` yields its one fixed state, whether
resolved at a boundary or through root-finding. -/
theorem flash_to_VF_constFlasher (rs : RootScalar) (P VF : ℝ) (zs : List ℝ) :
    flash_to_VF rs constFlasher P VF zs = ⟨300, 0.3, 100, 10⟩ := by
  rw [flash_to_VF]
  split <;> rfl

/-- Evaluation of the vaporization model on `constFlasher` over the full
`[0, 1]` vapor-fraction interval: both flashed endpoint states coincide, so
the latent-heat denominator is zero and the division is performed anyway
(real division by zero is `0` in this model). -/
theorem api521_constFlasher_eval (c : ℝ) :
    api521_fire_wetted rs0 constFlasher 100000 [1] 0 1 ⟨1, c⟩ true 1 true =
      .ok ⟨21000, 21000, 0, 10, 300, 300, 0, 0, 0, 0⟩ := by
  rw [api521_fire_wetted]
  have h0 := flash_to_VF_constFlasher rs0 100000 0 [1]
  have h1 := flash_to_VF_constFlasher rs0 100000 1 [1]
  simp only [h0, h1]
  norm_num [Real.rpow_one]

/-- Evaluation of the vaporization model on `rampFlasher` over the full
`[0, 1]` vapor-fraction interval, a non-degenerate scenario. -/
theorem api521_rampFlasher_eval :
    api521_fire_wetted rs0 rampFlasher 100000 [1] 0 1 ⟨1, 1⟩ true 1 true =
      .ok ⟨21000, 21000, 21000 / 90, 10, 0, 1, 100, 10, 90, 90⟩ := by
  rw [api521_fire_wetted]
  have h0 : flash_to_VF rs0 rampFlasher 100000 0 [1] = ⟨0, 0, 0, 10⟩ := by
    rw [flash_to_VF_boundary rs0 rampFlasher 100000 0 [1] (Or.inl rfl)]
    norm_num [rampFlasher]
  have h1 : flash_to_VF rs0 rampFlasher 100000 1 [1] = ⟨1, 1, 100, 10⟩ := by
    rw [flash_to_VF_boundary rs0 rampFlasher 100000 1 [1] (Or.inr rfl)]
    norm_num [rampFlasher]
  simp only [h0, h1]
  norm_num [Real.rpow_one]

/-- Claim C1: for every wetted area `A`, environment factor `F`, and flags
`adequate_drainage` and `air_cooler`, the heat duty computed by
`fire_wetted_Q` equals `C * F * A ^ E` with `C = 21000` BTU/hr/ft² when
`adequate_drainage` is true and `C = 34500` when it is false, and `E = 1.0`
when `air_cooler` is true and `E = 0.82` when it is false; the returned duty
constant equals the constant used. -/
theorem fire_wetted_Q_formula (A F : ℝ) (adequate_drainage air_cooler : Bool) :
    (fire_wetted_Q A adequate_drainage F air_cooler).1 =
      (if adequate_drainage then (21000.0 : ℝ) else 34500.0) * F *
        A ^ (if air_cooler then (1.0 : ℝ) else 0.82) ∧
    (fire_wetted_Q A adequate_drainage F air_cooler).2 =
      (if adequate_drainage then (21000.0 : ℝ) else 34500.0) ∧
    ∀ (rs : RootScalar) (flasher : Flasher) (P : ℝ) (zs : List ℝ)
      (initial_VF final_VF c : ℝ) (r : FireWettedResults),
      api521_fire_wetted rs flasher P zs initial_VF final_VF ⟨A, c⟩
          adequate_drainage F air_cooler = .ok r →
        r.Q = (if adequate_drainage then (21000.0 : ℝ) else 34500.0) * F *
          A ^ (if air_cooler then (1.0 : ℝ) else 0.82) ∧
        r.C = (if adequate_drainage then (21000.0 : ℝ) else 34500.0) := by
  refine ⟨rfl, rfl, ?_⟩
  intro rs flasher P zs initial_VF final_VF c r h
  rw [api521_fire_wetted] at h
  by_cases hle : final_VF ≤ initial_VF
  · simp [hle] at h
  · simp only [if_neg hle, Except.ok.injEq] at h
    subst h
    exact ⟨rfl, rfl⟩

/-- Witness for `fire_wetted_Q_formula`: the `rampFlasher` run over
`[0, 1]` with `A = 1` ft² discharges the `.ok` hypothesis of the
`api521_fire_wetted` conjunct. -/
theorem fire_wetted_Q_formula_witness :
    (api521_fire_wetted rs0 rampFlasher 100000 [1] 0 1 ⟨1, 1⟩ true 1 true =
      .ok ⟨21000, 21000, 21000 / 90, 10, 0, 1, 100, 10, 90, 90⟩) ∧
    ((⟨21000, 21000, 21000 / 90, 10, 0, 1, 100, 10, 90,
        90⟩ : FireWettedResults).Q =
      (if true then (21000.0 : ℝ) else 34500.0) * 1 *
        (1 : ℝ) ^ (if true then (1.0 : ℝ) else 0.82) ∧
    (⟨21000, 21000, 21000 / 90, 10, 0, 1, 100, 10, 90,
        90⟩ : FireWettedResults).C =
      (if true then (21000.0 : ℝ) else 34500.0)) :=
  ⟨api521_rampFlasher_eval,
    (fire_wetted_Q_formula 1 1 true true).2.2 rs0 rampFlasher 100000 [1] 0 1
      1 _ api521_rampFlasher_eval⟩

/-- Claim C2: when `VF = 0` or `VF = 1`, `flash_to_VF` returns exactly the
flasher's direct boundary flash, independently of the root finder (no
root-finding invoked); otherwise — assuming the bracketed root finder
returns a root of the vapor-fraction residual, which is its contract — it
returns the state flashed at a temperature `T*` lying in
`[T_sat_liquid, T_sat_vapor]` (the temperatures of the `VF = 0` and `VF = 1`
states at the same pressure) at which the flashed vapor fraction equals the
requested `VF`. -/
theorem flash_to_VF_resolve_spec (rs : RootScalar) (flasher : Flasher)
    (P VF : ℝ) (zs : List ℝ)
    (hroot : ¬(VF = 0 ∨ VF = 1) →
      rs (fun T_val => (flasher.flashTP T_val P zs).VF - VF)
          (flasher.flashPV P 0 zs).T (flasher.flashPV P 1 zs).T ∈
        Set.Icc (flasher.flashPV P 0 zs).T (flasher.flashPV P 1 zs).T ∧
      (flasher.flashTP
          (rs (fun T_val => (flasher.flashTP T_val P zs).VF - VF)
            (flasher.flashPV P 0 zs).T (flasher.flashPV P 1 zs).T) P zs).VF
        = VF) :
    ((VF = 0 ∨ VF = 1) →
      flash_to_VF rs flasher P VF zs = flasher.flashPV P VF zs ∧
      ∀ rs' : RootScalar, flash_to_VF rs' flasher P VF zs =
        flasher.flashPV P VF zs) ∧
    (¬(VF = 0 ∨ VF = 1) →
      ∃ Tstar ∈ Set.Icc (flash_to_VF rs flasher P 0 zs).T
          (flash_to_VF rs flasher P 1 zs).T,
        flash_to_VF rs flasher P VF zs = flasher.flashTP Tstar P zs ∧
        (flash_to_VF rs flasher P VF zs).VF = VF) := by
  constructor
  · intro h
    exact ⟨flash_to_VF_boundary rs flasher P VF zs h,
      fun rs' => flash_to_VF_boundary rs' flasher P VF zs h⟩
  · intro h
    have h0 := flash_to_VF_boundary rs flasher P 0 zs (Or.inl rfl)
    have h1 := flash_to_VF_boundary rs flasher P 1 zs (Or.inr rfl)
    obtain ⟨hmem, hVF⟩ := hroot h
    refine ⟨rs (fun T_val => (flasher.flashTP T_val P zs).VF - VF)
      (flasher.flashPV P 0 zs).T (flasher.flashPV P 1 zs).T, ?_, ?_, ?_⟩
    · rw [h0, h1]; exact hmem
    · rw [flash_to_VF_interior rs flasher P VF zs h, h0, h1]
    · rw [flash_to_VF_interior rs flasher P VF zs h, h0, h1]
      exact hVF

/-- Witness for `flash_to_VF_resolve_spec`: the concrete scenario
`rs0` / `rampFlasher` at `P = 101325`, `VF = 1/2`, `zs = [1]`, where the
root-finder hypothesis holds because `1/2` is an exact root of the
residual. -/
theorem flash_to_VF_resolve_spec_witness :
    (((1 : ℝ) / 2 = 0 ∨ (1 : ℝ) / 2 = 1) →
      flash_to_VF rs0 rampFlasher 101325 (1 / 2) [1] =
        rampFlasher.flashPV 101325 (1 / 2) [1] ∧
      ∀ rs' : RootScalar, flash_to_VF rs' rampFlasher 101325 (1 / 2) [1] =
        rampFlasher.flashPV 101325 (1 / 2) [1]) ∧
    (¬((1 : ℝ) / 2 = 0 ∨ (1 : ℝ) / 2 = 1) →
      ∃ Tstar ∈ Set.Icc (flash_to_VF rs0 rampFlasher 101325 0 [1]).T
          (flash_to_VF rs0 rampFlasher 101325 1 [1]).T,
        flash_to_VF rs0 rampFlasher 101325 (1 / 2) [1] =
          rampFlasher.flashTP Tstar 101325 [1] ∧
        (flash_to_VF rs0 rampFlasher 101325 (1 / 2) [1]).VF = 1 / 2) :=
  flash_to_VF_resolve_spec rs0 rampFlasher 101325 (1 / 2) [1]
    (by
      intro _
      constructor
      · norm_num [rs0, rampFlasher, Set.mem_Icc]
      · norm_num [rs0, rampFlasher])

/-- Claim C3: every successful run of the vaporization model satisfies the
stated energy-balance decomposition: the average heat capacity is the
arithmetic mean of the two flashed states' heat capacities, the total
enthalpy change is `H(final) - H(initial)`, the sensible part is
`avg_Cp * (T(final) - T(initial))`, the latent part is total minus sensible,
the latent heat per unit vaporized is the latent part divided by
`VF(final) - VF(initial)`, and the vaporization rate is
`n = Q / latent_dH_per_vapor`. -/
theorem api521_fire_wetted_energy_balance (rs : RootScalar) (flasher : Flasher)
    (P : ℝ) (zs : List ℝ) (initial_VF final_VF : ℝ) (A : AreaQ)
    (adequate_drainage : Bool) (F : ℝ) (air_cooler : Bool)
    (r : FireWettedResults)
    (h : api521_fire_wetted rs flasher P zs initial_VF final_VF A
      adequate_drainage F air_cooler = .ok r) :
    r.initial_T = (flash_to_VF rs flasher P initial_VF zs).T ∧
    r.final_T = (flash_to_VF rs flasher P final_VF zs).T ∧
    r.avg_Cp = ((flash_to_VF rs flasher P initial_VF zs).Cp +
      (flash_to_VF rs flasher P final_VF zs).Cp) / 2 ∧
    r.interval_total_dH = (flash_to_VF rs flasher P final_VF zs).H -
      (flash_to_VF rs flasher P initial_VF zs).H ∧
    r.interval_specific_dH = r.avg_Cp * (r.final_T - r.initial_T) ∧
    r.interval_latent_dH = r.interval_total_dH - r.interval_specific_dH ∧
    r.latent_dH_per_vapor = r.interval_latent_dH /
      ((flash_to_VF rs flasher P final_VF zs).VF -
        (flash_to_VF rs flasher P initial_VF zs).VF) ∧
    r.n = r.Q / r.latent_dH_per_vapor := by
  rw [api521_fire_wetted] at h
  by_cases hle : final_VF ≤ initial_VF
  · simp [hle] at h
  · simp only [if_neg hle, Except.ok.injEq] at h
    subst h
    norm_num

/-- Witness for `api521_fire_wetted_energy_balance`: the concrete
`rampFlasher` run over `[0, 1]`, whose `.ok` hypothesis is discharged by
`api521_rampFlasher_eval`. -/
theorem api521_fire_wetted_energy_balance_witness :
    (api521_fire_wetted rs0 rampFlasher 100000 [1] 0 1 ⟨1, 1⟩ true 1 true =
      .ok ⟨21000, 21000, 21000 / 90, 10, 0, 1, 100, 10, 90, 90⟩) ∧
    ((⟨21000, 21000, 21000 / 90, 10, 0, 1, 100, 10, 90,
        90⟩ : FireWettedResults).latent_dH_per_vapor =
      (⟨21000, 21000, 21000 / 90, 10, 0, 1, 100, 10, 90,
        90⟩ : FireWettedResults).interval_latent_dH /
      ((flash_to_VF rs0 rampFlasher 100000 1 [1]).VF -
        (flash_to_VF rs0 rampFlasher 100000 0 [1]).VF)) :=
  ⟨api521_rampFlasher_eval,
    (api521_fire_wetted_energy_balance rs0 rampFlasher 100000 [1] 0 1 ⟨1, 1⟩
      true 1 true _ api521_rampFlasher_eval).2.2.2.2.2.2.1⟩

/-- Claim C4: whenever `final_VF <= initial_VF`, `api521_fire_wetted` raises
its range-validation `ValueError` with the source's message, and it does so
before any flash evaluation is attempted: the memo state — including the
flasher call count — is returned exactly as it came in. -/
theorem api521_fire_wetted_guard_before_flash (rs : RootScalar)
    (flasher : Flasher) (rsCalls : ℕ) (P : ℝ) (zs : List ℝ)
    (initial_VF final_VF : ℝ) (A : AreaQ) (adequate_drainage : Bool) (F : ℝ)
    (air_cooler : Bool) (st : MemoState) (h : final_VF ≤ initial_VF) :
    api521_fire_wetted_memo rs flasher rsCalls P zs initial_VF final_VF A
        adequate_drainage F air_cooler st =
      (.error "final_VF must be greater than initial_VF", st) ∧
    (api521_fire_wetted_memo rs flasher rsCalls P zs initial_VF final_VF A
        adequate_drainage F air_cooler st).2.flasherCalls =
      st.flasherCalls := by
  rw [api521_fire_wetted_memo]
  simp [h]

/-- Witness for `api521_fire_wetted_guard_before_flash`: `final_VF = 1/2 =
initial_VF` on a fresh memo state. -/
theorem api521_fire_wetted_guard_before_flash_witness :
    ((1 : ℝ) / 2 ≤ 1 / 2) ∧
    api521_fire_wetted_memo rs0 rampFlasher 7 100000 [1] (1 / 2) (1 / 2)
        ⟨1, 1⟩ true 1 true ⟨[], 0⟩ =
      (.error "final_VF must be greater than initial_VF", ⟨[], 0⟩) :=
  ⟨le_refl _,
    (api521_fire_wetted_guard_before_flash rs0 rampFlasher 7 100000 [1]
      (1 / 2) (1 / 2) ⟨1, 1⟩ true 1 true ⟨[], 0⟩ (le_refl _)).1⟩

/-- Claim C5: calling the memoized resolver a second time with an identical
`(P, VF, zs)` key returns the cached `EquilibriumState` of the first call
and leaves the state untouched — in particular it issues no additional
calls to the underlying flasher (the call count is unchanged). -/
theorem flash_to_VF_memo_second_call (rs : RootScalar) (flasher : Flasher)
    (rsCalls : ℕ) (P VF : ℝ) (zs : List ℝ) (st : MemoState) :
    flash_to_VF_memo rs flasher rsCalls P VF zs
        (flash_to_VF_memo rs flasher rsCalls P VF zs st).2 =
      ((flash_to_VF_memo rs flasher rsCalls P VF zs st).1,
        (flash_to_VF_memo rs flasher rsCalls P VF zs st).2) ∧
    (flash_to_VF_memo rs flasher rsCalls P VF zs
        (flash_to_VF_memo rs flasher rsCalls P VF zs st).2).2.flasherCalls =
      (flash_to_VF_memo rs flasher rsCalls P VF zs st).2.flasherCalls := by
  have hmain : flash_to_VF_memo rs flasher rsCalls P VF zs
      (flash_to_VF_memo rs flasher rsCalls P VF zs st).2 =
      ((flash_to_VF_memo rs flasher rsCalls P VF zs st).1,
        (flash_to_VF_memo rs flasher rsCalls P VF zs st).2) := by
    rw [flash_to_VF_memo, lookupKey_flash_to_VF_memo]
  exact ⟨hmain, by rw [hmain]⟩

/-- Claim C6: `darcy_dp` raises the fixed underspecified error when none of
the three flow specifiers `v`, `Q`, `m` is supplied, raises the fixed and
distinct overspecified error when more than one is supplied, and returns a
pressure-drop result without raising when exactly one is supplied. -/
theorem darcy_dp_spec_count (f L D rho : ℝ) (v Q m : Option ℝ) :
    ((v = none ∧ Q = none ∧ m = none) →
      darcy_dp f L D rho v Q m = .error underspecified_msg) ∧
    (1 < (if v.isSome then 1 else 0) + (if Q.isSome then 1 else 0) +
        (if m.isSome then 1 else 0) →
      darcy_dp f L D rho v Q m = .error overspecified_msg) ∧
    underspecified_msg ≠ overspecified_msg ∧
    ((if v.isSome then 1 else 0) + (if Q.isSome then 1 else 0) +
        (if m.isSome then 1 else 0) = 1 →
      ∃ dp, darcy_dp f L D rho v Q m = .ok dp) := by
  refine ⟨?_, ?_, ?_, ?_⟩
  · rintro ⟨rfl, rfl, rfl⟩
    rfl
  · intro h
    simp [darcy_dp.eq_def, h]
  · decide
  · intro h
    simp [darcy_dp.eq_def, h]

/-- Witness for `darcy_dp_spec_count`: with no flow specifier the call
fails with the underspecified message; with exactly one (a velocity) it
returns a pressure drop. -/
theorem darcy_dp_spec_count_witness :
    darcy_dp 0.016 10 2 62.4 none none none = .error underspecified_msg ∧
    ∃ dp, darcy_dp 0.016 10 2 62.4 (some 5) none none = .ok dp :=
  ⟨(darcy_dp_spec_count 0.016 10 2 62.4 none none none).1 ⟨rfl, rfl, rfl⟩,
    (darcy_dp_spec_count 0.016 10 2 62.4 (some 5) none none).2.2.2 rfl⟩

/-- Claim C7: for a velocity `v`, nonzero diameter `D` and nonzero density
`rho`, supplying the equivalent volumetric flow `v * (pi * D^2 / 4)` or the
equivalent mass flow `rho * v * (pi * D^2 / 4)` yields exactly the same
pressure drop `f * rho * L * v^2 / (2 * D)` as supplying the velocity
directly. -/
theorem darcy_dp_flow_mode_equiv (f L D rho v : ℝ) (hD : D ≠ 0)
    (hrho : rho ≠ 0) :
    darcy_dp f L D rho (some v) none none =
      .ok (f * rho * L * v * v / 2 / D) ∧
    darcy_dp f L D rho none (some (v * (Real.pi * D ^ 2 / 4))) none =
      .ok (f * rho * L * v * v / 2 / D) ∧
    darcy_dp f L D rho none none (some (rho * v * (Real.pi * D ^ 2 / 4))) =
      .ok (f * rho * L * v * v / 2 / D) := by
  have hpi := Real.pi_ne_zero
  refine ⟨rfl, ?_, ?_⟩
  · have hv : v * (Real.pi * D ^ 2 / 4) / (Real.pi / 4 * D ^ 2) = v := by
      field_simp
    rw [darcy_dp]
    norm_num [hv]
  · have hv : rho * v * (Real.pi * D ^ 2 / 4) / rho / (Real.pi / 4 * D ^ 2)
        = v := by
      field_simp
      ring
    rw [darcy_dp]
    norm_num [hv]

/-- Witness for `darcy_dp_flow_mode_equiv`: the three input modes at
`f = L = D = rho = v = 1`. -/
theorem darcy_dp_flow_mode_equiv_witness :
    ((1 : ℝ) ≠ 0) ∧
    (darcy_dp 1 1 1 1 (some 1) none none =
      .ok ((1 : ℝ) * 1 * 1 * 1 * 1 / 2 / 1) ∧
    darcy_dp 1 1 1 1 none (some (1 * (Real.pi * 1 ^ 2 / 4))) none =
      .ok ((1 : ℝ) * 1 * 1 * 1 * 1 / 2 / 1) ∧
    darcy_dp 1 1 1 1 none none (some (1 * 1 * (Real.pi * 1 ^ 2 / 4))) =
      .ok ((1 : ℝ) * 1 * 1 * 1 * 1 / 2 / 1)) :=
  ⟨one_ne_zero, darcy_dp_flow_mode_equiv 1 1 1 1 1 one_ne_zero one_ne_zero⟩

/-- Claim C8: there is an input — `constFlasher`, whose flashed initial and
final states coincide (a degenerate interval) — on which the model passes
its only guard (`final_VF > initial_VF` holds nominally) and still reaches
the division `interval_latent_dH / (VF(final) - VF(initial))` with a
denominator equal to zero: no guard or dedicated error precedes that
division (real division by zero is total here; the Python source performs
the same unguarded float division).  The first conjunct shows a result is
produced rather than a dedicated error; the second exhibits the zero
denominator. -/
theorem api521_fire_wetted_degenerate_unguarded :
    api521_fire_wetted rs0 constFlasher 100000 [1] 0 1 ⟨1, 1⟩ true 1 true =
      .ok ⟨21000, 21000, 0, 10, 300, 300, 0, 0, 0, 0⟩ ∧
    (flash_to_VF rs0 constFlasher 100000 1 [1]).VF -
      (flash_to_VF rs0 constFlasher 100000 0 [1]).VF = 0 := by
  constructor
  · exact api521_constFlasher_eval 1
  · rw [flash_to_VF_constFlasher, flash_to_VF_constFlasher]
    norm_num

/-- Claim C9, counterexample: the two duty implementations disagree on the
same physical input when the wetted area is not expressed in ft².  For
`A = 1 yd² = 9 ft²` (an air cooler with adequate drainage, `F = 1`), the
`prfs` model computes `Q = 21000` BTU/hr — it exponentiates the magnitude
`1` in the caller's unit and relabels it ft² — while `psv_tools`
`fire_wetted_Q` converts the area to `9` ft² first and computes
`Q = 189000` BTU/hr. -/
theorem api521_vs_fire_wetted_Q_unit_mismatch :
    ∃ r, api521_fire_wetted rs0 constFlasher 100000 [1] 0 1 ⟨1, 9⟩ true 1
        true = .ok r ∧
      r.Q ≠ (fire_wetted_Q_wrapped ⟨1, 9⟩ true 1 true).1 := by
  refine ⟨_, api521_constFlasher_eval 9, ?_⟩
  rw [fire_wetted_Q_wrapped, fire_wetted_Q]
  norm_num [Real.rpow_one]

/-- Claim C9, amended: for every wetted area quantity *expressed in ft²*
(conversion factor 1) and all other inputs, any successful run of the
`prfs` `api521_fire_wetted` computes the same heat duty as the `psv_tools`
`fire_wetted_Q` on the same physical inputs.  (For any other area unit the
two differ, see `api521_vs_fire_wetted_Q_unit_mismatch`.) -/
theorem api521_vs_fire_wetted_Q_ft2 (rs : RootScalar) (flasher : Flasher)
    (P : ℝ) (zs : List ℝ) (initial_VF final_VF mag F : ℝ)
    (adequate_drainage air_cooler : Bool) (r : FireWettedResults)
    (h : api521_fire_wetted rs flasher P zs initial_VF final_VF ⟨mag, 1⟩
      adequate_drainage F air_cooler = .ok r) :
    r.Q = (fire_wetted_Q_wrapped ⟨mag, 1⟩ adequate_drainage F air_cooler).1 := by
  rw [api521_fire_wetted] at h
  by_cases hle : final_VF ≤ initial_VF
  · simp [hle] at h
  · simp only [if_neg hle, Except.ok.injEq] at h
    subst h
    rw [fire_wetted_Q_wrapped, fire_wetted_Q]
    norm_num

/-- Witness for `api521_vs_fire_wetted_Q_ft2`: the concrete `rampFlasher`
run with `A = 1 ft²`, whose `.ok` hypothesis is `api521_rampFlasher_eval`. -/
theorem api521_vs_fire_wetted_Q_ft2_witness :
    (api521_fire_wetted rs0 rampFlasher 100000 [1] 0 1 ⟨1, 1⟩ true 1 true =
      .ok ⟨21000, 21000, 21000 / 90, 10, 0, 1, 100, 10, 90, 90⟩) ∧
    (⟨21000, 21000, 21000 / 90, 10, 0, 1, 100, 10, 90,
        90⟩ : FireWettedResults).Q =
      (fire_wetted_Q_wrapped ⟨1, 1⟩ true 1 true).1 :=
  ⟨api521_rampFlasher_eval,
    api521_vs_fire_wetted_Q_ft2 rs0 rampFlasher 100000 [1] 0 1 1 1 true true
      _ api521_rampFlasher_eval⟩

/-- Claim C10: passing the composition `zs` as a Python `list` — the very
type the signature declares — makes the memoized resolver raise `TypeError`
from the memoization layer (the cache key is unhashable) before any flash
is performed: the error is returned with the memo state, and its flasher
call count, untouched.  Only hashable compositions (e.g. tuples) reach the
resolver body. -/
theorem flash_to_VF_entry_list_typeerror (rs : RootScalar) (flasher : Flasher)
    (rsCalls : ℕ) (P VF : ℝ) (xs : List ℝ) (st : MemoState) :
    flash_to_VF_entry rs flasher rsCalls P VF (.pylist xs) st =
      (.error "TypeError: unhashable type: list", st) ∧
    (flash_to_VF_entry rs flasher rsCalls P VF (.pylist xs) st).2.flasherCalls
      = st.flasherCalls ∧
    ∀ ys : List ℝ, flash_to_VF_entry rs flasher rsCalls P VF (.pytuple ys) st
      = (.ok (flash_to_VF_memo rs flasher rsCalls P VF ys st).1,
        (flash_to_VF_memo rs flasher rsCalls P VF ys st).2) := by
  exact ⟨rfl, rfl, fun ys => rfl⟩
